import Mathlib

/-!
Verification of the request-shaping and size/aspect-ratio negotiation core of
the `gen` CLI (main.go), as a shallow embedding in Lean 4.

Modelling conventions, stated once:
* Go `float64` ratio arithmetic is embedded as exact rationals (`ℚ`); the
  reference ratios and all inputs used in concrete statements are far from any
  float-rounding boundary.
* Go maps are embedded as association lists in their source-literal order.
  The one reverse map iteration (`getClosestRatio`) is over an injective
  table, so Go's unspecified map order cannot change its result.
* The file system and the external image decoder are parameters
  (`fs : String → Option (List Nat)` for file bytes,
  `dims : String → Option (Int × Int)` for decoded pixel dimensions);
  `none` models a read/decode failure.
* Go `encoding/json` `omitempty` fields are embedded as `Option`/empty-string
  sentinels exactly as the zero values the source relies on, and
  `serializeRequest` reproduces which fields appear in the marshalled object.
-/

/-- Embeds the per-model record of the `models` table (main.go). -/
structure ModelInfo where
  genPath : String
  editPath : String
  supportsAutoImgSize : Bool
  sizeParamName : String
deriving DecidableEq

/-- The static model registry `models` (main.go), in source order. -/
def models : List (String × ModelInfo) :=
  [("z-turbo", ⟨"fal-ai/z-image/turbo", "", false, "image_size"⟩),
   ("qwen", ⟨"fal-ai/qwen-image", "fal-ai/qwen-image-edit-plus", false, "image_size"⟩),
   ("flux2-pro", ⟨"fal-ai/flux-2-pro", "fal-ai/flux-2-pro/edit", true, "image_size"⟩),
   ("flux2-flex", ⟨"fal-ai/flux-2-flex", "fal-ai/flux-2-flex/edit", true, "image_size"⟩),
   ("nano-banana", ⟨"fal-ai/nano-banana", "fal-ai/nano-banana/edit", true, "aspect_ratio"⟩),
   ("nano-banana-pro", ⟨"fal-ai/nano-banana-pro", "fal-ai/nano-banana-pro/edit", true, "aspect_ratio"⟩)]

/-- The `modelAliases` table (main.go). -/
def modelAliases : List (String × String) := [("flux2", "flux2-pro")]

/-- `resolveModel` (main.go): one alias hop, otherwise the name itself. -/
def resolveModel (name : String) : String :=
  match modelAliases.lookup name with
  | some target => target
  | none => name

/-- The registry lookup `models[resolvedModel]` performed by `runGenerate`. -/
def lookupModel (name : String) : Option ModelInfo := models.lookup name

/-- The `ratioToPreset` map (main.go), in source order. -/
def ratioToPreset : List (String × String) :=
  [("9:16", "portrait_16_9"), ("3:4", "portrait_4_3"), ("1:1", "square_hd"),
   ("4:3", "landscape_4_3"), ("16:9", "landscape_16_9")]

/-- The `aspectRatioSupported` allow-list (main.go). -/
def aspectRatioSupported : List String :=
  ["21:9", "16:9", "3:2", "4:3", "5:4", "1:1", "4:5", "3:4", "2:3", "9:16", "auto"]

/-- The `aspectPresets` table (main.go); `Ratio` is width / height. -/
def aspectPresets : List (String × ℚ) :=
  [("portrait_16_9", 9/16), ("portrait_4_3", 3/4), ("square_hd", 1),
   ("landscape_4_3", 4/3), ("landscape_16_9", 16/9)]

/-- `parseSize` (main.go): mapped ratio strings become presets, anything else
passes through unchanged. -/
def parseSize (s : String) : String :=
  match ratioToPreset.lookup s with
  | some preset => preset
  | none => s

/-- The source's own `abs` helper (main.go), on the exact-rational embedding. -/
def absQ (x : ℚ) : ℚ := if x < 0 then -x else x

/-- `getClosestPreset` (main.go): degenerate dimensions short-circuit to
`square_hd`; otherwise a fold over `aspectPresets` keeping the first entry
whose difference to width/height is strictly below the running minimum,
which starts at the sentinel `("square_hd", 999)`. -/
def getClosestPreset (width height : Int) : String :=
  if width = 0 ∨ height = 0 then "square_hd"
  else
    (aspectPresets.foldl
      (fun acc preset =>
        if absQ ((width : ℚ) / (height : ℚ) - preset.2) < acc.2
        then (preset.1, absQ ((width : ℚ) / (height : ℚ) - preset.2))
        else acc)
      ("square_hd", (999 : ℚ))).1

/-- The reverse-lookup loop of `getClosestRatio` (main.go): the ratio string
mapping to the given preset, defaulting to "1:1". The table is injective, so
Go's unspecified map iteration order is immaterial. -/
def presetToRatio (preset : String) : String :=
  match ratioToPreset.find? (fun kv => kv.2 == preset) with
  | some kv => kv.1
  | none => "1:1"

/-- `getClosestRatio` (main.go). -/
def getClosestRatio (width height : Int) : String :=
  presetToRatio (getClosestPreset width height)

/-- The size-directive decision of `runGenerate` (main.go lines 250-266).
`""` is the source's "no directive" sentinel; `dims` is the external image
decoder applied to the first input image, `none` modelling a decode failure.
`isEditMode` is `len(inputImages) > 0` exactly as in the source, so the
source's third guard `isEditMode && len(inputImages) > 0` is one condition
here and its final implicit "leave sizeValue empty" branch (reachable only
with `!isEditMode` false and the third guard false at once) is dead and
absorbed into the generate-mode `"4:3"` arm. -/
def determineSizeValue (dims : String → Option (Int × Int)) (size : String)
    (supportsAutoImgSize : Bool) (inputImages : List String) : String :=
  if size ≠ "" ∧ size ≠ "auto" then size
  else if 0 < inputImages.length ∧ supportsAutoImgSize = true then "auto"
  else if 0 < inputImages.length then
    match dims (inputImages.headD "") with
    | some (width, height) => getClosestRatio width height
    | none => ""
  else "4:3"

/-- The size-parameter materialization of `runGenerate` (main.go lines
274-287): returns the `(ImageSize, AspectRatio)` fields of the request,
with `none` and `""` the respective omitted zero values. -/
def setSizeParam (sizeParamName sizeValue : String) : Option String × String :=
  if sizeParamName = "aspect_ratio" then
    if sizeValue ≠ "" then (none, sizeValue) else (none, "")
  else
    if sizeValue ≠ "" ∧ sizeValue ≠ "auto" then (some (parseSize sizeValue), "")
    else if sizeValue = "auto" then (some "auto", "")
    else (none, "")

/-- Embeds the `ImageRequest` struct (main.go). The Go `ImageSize` field is
an `interface` value, but this program only ever stores strings (preset
names or "auto") in it, so it is embedded as `Option String`; `AspectRatio`
keeps the source's `""`-means-omitted zero value. -/
structure ImageRequest where
  prompt : String
  imageSize : Option String
  aspectRatio : String
  outputFormat : String
  imageURLs : List String
  seed : Option Int
  enableSafetyChecker : Bool
deriving DecidableEq

/-- The fatal pre-network errors of `runGenerate` (main.go): unknown model,
model without edit support, unreadable input image (1-based ordinal and
path). Each aborts the invocation before any network call. -/
inductive GenError
  | unknownModel (name : String)
  | unsupportedEdit (name : String)
  | imageRead (ordinal : Nat) (path : String)
deriving DecidableEq

/-- Go `filepath.Ext`: the suffix from the final dot of the final path
element, empty if that element has no dot. -/
def extAux : List Char → List Char → String
  | [], _ => ""
  | c :: rest, acc =>
    if c = '/' then ""
    else if c = '.' then String.mk ('.' :: acc)
    else extAux rest (c :: acc)

/-- Go `filepath.Ext` on a Unix path. -/
def filepathExt (path : String) : String := extAux path.toList.reverse []

/-- Go `strings.ToLower` restricted to ASCII (the only characters the
extension switch below compares against). -/
def toLowerAscii (s : String) : String :=
  String.mk (s.toList.map fun c =>
    if 'A' ≤ c ∧ c ≤ 'Z' then Char.ofNat (c.toNat + 32) else c)

/-- The extension switch of `imageToDataURI` (main.go lines 538-551): the
MIME type is a function of the path alone, never of the file contents. -/
def mimeTypeForPath (path : String) : String :=
  if toLowerAscii (filepathExt path) = ".png" then "image/png"
  else if toLowerAscii (filepathExt path) = ".jpg" ∨ toLowerAscii (filepathExt path) = ".jpeg" then "image/jpeg"
  else if toLowerAscii (filepathExt path) = ".webp" then "image/webp"
  else if toLowerAscii (filepathExt path) = ".gif" then "image/gif"
  else "application/octet-stream"

/-- One character of the RFC 4648 standard base64 alphabet. -/
def base64Char (n : Nat) : Char :=
  ("ABCDEFGHIJKLMNOPQRSTUVWXYZabcdefghijklmnopqrstuvwxyz0123456789+/".toList).getD n 'A'

/-- Go `base64.StdEncoding.EncodeToString` over a byte list. -/
def base64Encode : List Nat → String
  | [] => ""
  | [a] =>
    String.mk [base64Char (a / 4), base64Char (a % 4 * 16)] ++ "=="
  | [a, b] =>
    String.mk [base64Char (a / 4), base64Char (a % 4 * 16 + b / 16),
               base64Char (b % 16 * 4)] ++ "="
  | a :: b :: c :: rest =>
    String.mk [base64Char (a / 4), base64Char (a % 4 * 16 + b / 16),
               base64Char (b % 16 * 4 + c / 64), base64Char (c % 64)]
      ++ base64Encode rest

/-- `imageToDataURI` (main.go): read the file, pick the MIME type from the
extension, base64-encode the bytes into a data URI. `fs` is the external
file system; `none` models a read failure. -/
def imageToDataURI (fs : String → Option (List Nat)) (path : String) : Option String :=
  match fs path with
  | none => none
  | some data =>
    some ("data:" ++ mimeTypeForPath path ++ ";base64," ++ base64Encode data)

/-- The edit-mode image loop of `runGenerate` (main.go lines 293-305):
data URIs in order, aborting at the first unreadable image with its
1-based ordinal and path. -/
def encodeImages (fs : String → Option (List Nat)) :
    List String → Nat → Except (Nat × String) (List String)
  | [], _ => Except.ok []
  | path :: rest, i =>
    match imageToDataURI fs path with
    | none => Except.error (i + 1, path)
    | some uri =>
      match encodeImages fs rest (i + 1) with
      | Except.error e => Except.error e
      | Except.ok uris => Except.ok (uri :: uris)

/-- The request value `runGenerate` assembles for a resolved model: prompt
and format verbatim, the size fields from `setSizeParam`, the seed only when
the flag is non-negative, and the safety-checker flag left at its zero
value (the source never sets it). -/
def mkReq (dims : String → Option (Int × Int)) (info : ModelInfo)
    (prompt size format : String) (seedFlag : Int) (inputImages urls : List String) :
    ImageRequest :=
  { prompt := prompt
    imageSize := (setSizeParam info.sizeParamName
      (determineSizeValue dims size info.supportsAutoImgSize inputImages)).1
    aspectRatio := (setSizeParam info.sizeParamName
      (determineSizeValue dims size info.supportsAutoImgSize inputImages)).2
    outputFormat := format
    imageURLs := urls
    seed := if 0 ≤ seedFlag then some seedFlag else none
    enableSafetyChecker := false }

/-- The pre-network phase of `runGenerate` (main.go lines 229-305): model
resolution and lookup, the edit-support check, size negotiation, seed and
image handling. An `Except.ok` value is the `(model path, request)` pair
handed to the API client; every `Except.error` aborts the invocation before
any network call is attempted. -/
def buildInvocation (fs : String → Option (List Nat))
    (dims : String → Option (Int × Int))
    (prompt modelName size format : String) (seedFlag : Int)
    (inputImages : List String) : Except GenError (String × ImageRequest) :=
  match lookupModel (resolveModel modelName) with
  | none => Except.error (GenError.unknownModel modelName)
  | some info =>
    if inputImages.isEmpty then
      Except.ok (info.genPath, mkReq dims info prompt size format seedFlag inputImages [])
    else
      if info.editPath = "" then Except.error (GenError.unsupportedEdit modelName)
      else
        match encodeImages fs inputImages 0 with
        | Except.error e => Except.error (GenError.imageRead e.1 e.2)
        | Except.ok uris =>
          Except.ok (info.editPath, mkReq dims info prompt size format seedFlag inputImages uris)

/-- A JSON value, for the response-body shapes `callFALAPI` distinguishes
and for the fields `encoding/json` emits for a request. -/
inductive Json
  | null
  | bool (b : Bool)
  | num (n : Int)
  | str (s : String)
  | arr (elems : List Json)
  | obj (fields : List (String × Json))

/-- Key lookup in a JSON object. Go additionally matches keys
case-insensitively as a fallback and keeps the last duplicate; neither
refinement is exercised by the shapes below, which use exact lowercase keys. -/
def jsonLookup (fields : List (String × Json)) (key : String) : Option Json :=
  fields.lookup key

/-- Go `json.Unmarshal` of one element of the `detail` array into
the Go struct with string fields Msg and Type: `none` is a decode error (the shape does not
match), `some` carries the `msg` value (`""` when absent or null). -/
def decodeMsgEntry (j : Json) : Option String :=
  match j with
  | Json.null => some ""
  | Json.obj fields =>
    match jsonLookup fields "type" with
    | none =>
      (match jsonLookup fields "msg" with
       | none => some ""
       | some Json.null => some ""
       | some (Json.str s) => some s
       | some _ => none)
    | some Json.null =>
      (match jsonLookup fields "msg" with
       | none => some ""
       | some Json.null => some ""
       | some (Json.str s) => some s
       | some _ => none)
    | some (Json.str _) =>
      (match jsonLookup fields "msg" with
       | none => some ""
       | some Json.null => some ""
       | some (Json.str s) => some s
       | some _ => none)
    | some _ => none
  | _ => none

/-- Go `json.Unmarshal` of the body into the detailed-error struct of
`callFALAPI` (a `detail` array of message objects): `none` is a decode
error, `some` the list of extracted messages (empty when `detail` is
absent or null). -/
def decodeDetailedErr (j : Json) : Option (List String) :=
  match j with
  | Json.null => some []
  | Json.obj fields =>
    match jsonLookup fields "detail" with
    | none => some []
    | some Json.null => some []
    | some (Json.arr elems) => elems.mapM decodeMsgEntry
    | some _ => none
  | _ => none

/-- Go `json.Unmarshal` of the body into the simple-error struct of
`callFALAPI` (a flat string `detail` field): `none` is a decode error,
`some` the detail string (`""` when absent or null). -/
def decodeSimpleErr (j : Json) : Option String :=
  match j with
  | Json.null => some ""
  | Json.obj fields =>
    match jsonLookup fields "detail" with
    | none => some ""
    | some Json.null => some ""
    | some (Json.str s) => some s
    | some _ => none
  | _ => none

/-- The API error `callFALAPI` raises on a non-success status: the HTTP
status code and the extracted message (the source formats them as
"API error (status): message"). -/
structure APIError where
  status : Nat
  message : String
deriving DecidableEq

/-- The non-success branch of `callFALAPI` (main.go lines 384-405): try the
detailed array shape, then the flat `detail` string shape, then fall back to
the raw body text. `parsed` is the body as a JSON value, `none` when the
body is not valid JSON (every unmarshal fails). -/
def extractAPIError (status : Nat) (rawBody : String) (parsed : Option Json) :
    APIError :=
  match parsed with
  | none => ⟨status, rawBody⟩
  | some j =>
    match decodeDetailedErr j with
    | some (msg :: _) => ⟨status, msg⟩
    | _ =>
      match decodeSimpleErr j with
      | some detail => if detail ≠ "" then ⟨status, detail⟩ else ⟨status, rawBody⟩
      | none => ⟨status, rawBody⟩

/-- Embeds the `ImageOutput` struct (main.go). -/
structure ImageOutput where
  url : String
  width : Int
  height : Int
  contentType : String
deriving DecidableEq

/-- Embeds the `ImageResponse` struct (main.go). -/
structure ImageResponse where
  images : List ImageOutput
  seed : Int
deriving DecidableEq

/-- The post-transport check of `runGenerate` (main.go lines 320-323 and
336): a deserialized response with no images is the fatal "No images
returned" error; otherwise the first image is the one saved. -/
def processResponse (resp : ImageResponse) : Except String ImageOutput :=
  match resp.images with
  | [] => Except.error "No images returned"
  | img :: _ => Except.ok img

/-- The fields Go `encoding/json` emits for an `ImageRequest`, in struct
order, honouring each field's `omitempty` tag (main.go lines 51-59):
`prompt` and `enable_safety_checker` always, the others only when non-zero. -/
def serializeRequest (r : ImageRequest) : List (String × Json) :=
  [("prompt", Json.str r.prompt)]
    ++ (match r.imageSize with
        | some s => [("image_size", Json.str s)]
        | none => [])
    ++ (if r.aspectRatio ≠ "" then [("aspect_ratio", Json.str r.aspectRatio)] else [])
    ++ (if r.outputFormat ≠ "" then [("output_format", Json.str r.outputFormat)] else [])
    ++ (if r.imageURLs ≠ [] then [("image_urls", Json.arr (r.imageURLs.map Json.str))] else [])
    ++ (match r.seed with
        | some n => [("seed", Json.num n)]
        | none => [])
    ++ [("enable_safety_checker", Json.bool r.enableSafetyChecker)]

/-- The source's `abs` helper agrees with the mathematical absolute value. -/
theorem absQ_eq_abs (x : ℚ) : absQ x = |x| := by
  rw [absQ]
  split
  · exact (abs_of_neg (by assumption)).symm
  · exact (abs_of_nonneg (le_of_not_lt (by assumption))).symm

/-- C5: for each of the five mapped ratio strings, Ratio→Preset
(`parseSize`) followed by Preset→Ratio (the reverse lookup of
`getClosestRatio`) returns the original ratio string exactly. -/
theorem ratio_preset_roundtrip :
    presetToRatio (parseSize "9:16") = "9:16" ∧
    presetToRatio (parseSize "3:4") = "3:4" ∧
    presetToRatio (parseSize "1:1") = "1:1" ∧
    presetToRatio (parseSize "4:3") = "4:3" ∧
    presetToRatio (parseSize "16:9") = "16:9" := by
  refine ⟨?_, ?_, ?_, ?_, ?_⟩ <;> rfl

/-- C6: a transport-successful response whose image list is empty is always
the fatal "No images returned" failure, and every successful outcome holds
at least one image. -/
theorem empty_images_is_failure :
    (∀ seedUsed : Int,
      processResponse ⟨[], seedUsed⟩ = Except.error "No images returned") ∧
    (∀ (resp : ImageResponse) (img : ImageOutput),
      processResponse resp = Except.ok img → resp.images ≠ []) := by
  constructor
  · intro s
    rfl
  · intro resp img h hempty
    rcases resp with ⟨imgs, sd⟩
    simp only at hempty
    subst hempty
    exact Except.noConfusion h

/-- Witness for C6 at a concrete one-image response. -/
theorem empty_images_is_failure_witness :
    processResponse ⟨[⟨"u", 1, 1, "image/png"⟩], 7⟩ = Except.ok ⟨"u", 1, 1, "image/png"⟩ ∧
    (⟨[⟨"u", 1, 1, "image/png"⟩], 7⟩ : ImageResponse).images ≠ [] :=
  ⟨rfl, empty_images_is_failure.2 ⟨[⟨"u", 1, 1, "image/png"⟩], 7⟩ ⟨"u", 1, 1, "image/png"⟩ rfl⟩

/-- C4: on a non-success status the error message comes from the first of
three body shapes that matches — detailed array (first entry's message),
flat string detail, raw body — always carrying the HTTP status code, and
the two "bad prompt" example bodies both surface exactly "bad prompt". -/
theorem api_error_shapes :
    (∀ (status : Nat) (raw : String) (j : Json) (msg : String) (rest : List String),
      decodeDetailedErr j = some (msg :: rest) →
      extractAPIError status raw (some j) = ⟨status, msg⟩) ∧
    (∀ (status : Nat) (raw : String) (j : Json) (detail : String),
      (decodeDetailedErr j = none ∨ decodeDetailedErr j = some []) →
      decodeSimpleErr j = some detail → detail ≠ "" →
      extractAPIError status raw (some j) = ⟨status, detail⟩) ∧
    (∀ (status : Nat) (raw : String) (j : Json),
      (decodeDetailedErr j = none ∨ decodeDetailedErr j = some []) →
      (decodeSimpleErr j = none ∨ decodeSimpleErr j = some "") →
      extractAPIError status raw (some j) = ⟨status, raw⟩) ∧
    (∀ (status : Nat) (raw : String), extractAPIError status raw none = ⟨status, raw⟩) ∧
    (∀ (status : Nat) (raw : String) (parsed : Option Json),
      (extractAPIError status raw parsed).status = status) ∧
    (∀ (status : Nat) (raw : String),
      extractAPIError status raw
        (some (Json.obj [("detail", Json.arr [Json.obj [("msg", Json.str "bad prompt")]])]))
        = ⟨status, "bad prompt"⟩) ∧
    (∀ (status : Nat) (raw : String),
      extractAPIError status raw (some (Json.obj [("detail", Json.str "bad prompt")]))
        = ⟨status, "bad prompt"⟩) := by
  refine ⟨?_, ?_, ?_, ?_, ?_, ?_, ?_⟩
  · intro status raw j msg rest h
    simp [extractAPIError, h]
  · intro status raw j detail hdet hsimple hne
    rcases hdet with h | h <;> simp [extractAPIError, h, hsimple, hne]
  · intro status raw j hdet hsimple
    rcases hdet with h | h <;> rcases hsimple with h2 | h2 <;>
      simp [extractAPIError, h, h2]
  · intro status raw
    rfl
  · intro status raw parsed
    rcases parsed with _ | j
    · rfl
    · simp only [extractAPIError]
      rcases hdet : decodeDetailedErr j with _ | l
      · rcases hs : decodeSimpleErr j with _ | d
        · rfl
        · by_cases hd : d ≠ "" <;> simp [hd]
      · rcases l with _ | ⟨m, rest⟩
        · rcases hs : decodeSimpleErr j with _ | d
          · rfl
          · by_cases hd : d ≠ "" <;> simp [hd]
        · rfl
  · intro status raw
    rfl
  · intro status raw
    rfl

/-- Witness for C4 at the two example bodies and a fallback body. -/
theorem api_error_shapes_witness :
    decodeDetailedErr
        (Json.obj [("detail", Json.arr [Json.obj [("msg", Json.str "bad prompt")]])])
      = some ["bad prompt"] ∧
    extractAPIError 422 "rawtext"
        (some (Json.obj [("detail", Json.arr [Json.obj [("msg", Json.str "bad prompt")]])]))
      = ⟨422, "bad prompt"⟩ ∧
    extractAPIError 500 "service unavailable" (some (Json.str "oops"))
      = ⟨500, "service unavailable"⟩ :=
  ⟨rfl,
   api_error_shapes.1 422 "rawtext" _ "bad prompt" [] rfl,
   api_error_shapes.2.2.1 500 "service unavailable" (Json.str "oops")
     (Or.inl rfl) (Or.inl rfl)⟩

/-- C9: model resolution is a single alias hop then a direct table lookup;
an unknown name is the fatal unknown-model error and an edit request on a
model with an empty edit path is the distinct unsupported-edit error, both
produced by the pre-network phase (no request is ever built for them). -/
theorem model_resolution_rejects :
    (∀ name, modelAliases.lookup name = none → resolveModel name = name) ∧
    resolveModel "flux2" = "flux2-pro" ∧
    (∀ fs dims prompt name size format seedFlag imgs,
      lookupModel (resolveModel name) = none →
      buildInvocation fs dims prompt name size format seedFlag imgs
        = Except.error (GenError.unknownModel name)) ∧
    (∀ fs dims prompt name size format seedFlag imgs info,
      imgs ≠ [] →
      lookupModel (resolveModel name) = some info →
      info.editPath = "" →
      buildInvocation fs dims prompt name size format seedFlag imgs
        = Except.error (GenError.unsupportedEdit name)) := by
  refine ⟨?_, rfl, ?_, ?_⟩
  · intro name h
    simp [resolveModel, h]
  · intro fs dims prompt name size format seedFlag imgs h
    simp [buildInvocation, h]
  · intro fs dims prompt name size format seedFlag imgs info hne hlook hep
    rcases imgs with _ | ⟨p, rest⟩
    · exact absurd rfl hne
    · simp [buildInvocation, hlook, hep]

/-- Witness for C9: the unknown model "no-such-model" and the edit-incapable
model "z-turbo" are both rejected at concrete inputs. -/
theorem model_resolution_rejects_witness :
    modelAliases.lookup "no-such-model" = none ∧
    resolveModel "no-such-model" = "no-such-model" ∧
    lookupModel (resolveModel "no-such-model") = none ∧
    buildInvocation (fun _ => none) (fun _ => none) "p" "no-such-model" "" "png" (-1) []
      = Except.error (GenError.unknownModel "no-such-model") ∧
    lookupModel (resolveModel "z-turbo")
      = some ⟨"fal-ai/z-image/turbo", "", false, "image_size"⟩ ∧
    buildInvocation (fun _ => none) (fun _ => none) "p" "z-turbo" "" "png" (-1) ["a.png"]
      = Except.error (GenError.unsupportedEdit "z-turbo") :=
  ⟨rfl, model_resolution_rejects.1 "no-such-model" rfl, rfl,
   model_resolution_rejects.2.2.1 (fun _ => none) (fun _ => none) "p" "no-such-model" "" "png" (-1) [] rfl,
   rfl,
   model_resolution_rejects.2.2.2 (fun _ => none) (fun _ => none) "p" "z-turbo" "" "png" (-1)
     ["a.png"] ⟨"fal-ai/z-image/turbo", "", false, "image_size"⟩ (by simp) rfl rfl⟩

/-- If r is on or below the midpoint of a ≤ b, it is at least as close to a. -/
theorem mid_le (r a b : ℚ) (hab : a ≤ b) (h : r ≤ (a + b) / 2) : |r - a| ≤ |r - b| := by
  have hb : r - b ≤ 0 := by linarith
  rw [abs_of_nonpos hb]
  exact abs_le.mpr ⟨by linarith, by linarith⟩

/-- If r is strictly above the midpoint of a < b, it is strictly closer to b. -/
theorem mid_lt (r a b : ℚ) (hab : a < b) (h : (a + b) / 2 < r) : |r - b| < |r - a| := by
  have ha : 0 < r - a := by linarith
  rw [abs_of_pos ha]
  exact abs_lt.mpr ⟨by linarith, by linarith⟩

/-- A point strictly within c of q has distance to q below c. -/
theorem near_lt (r q c : ℚ) (h1 : q - c < r) (h2 : r < q + c) : |r - q| < c :=
  abs_lt.mpr ⟨by linarith, by linarith⟩

/-- A point at least c below q has distance to q at least c. -/
theorem far_lo (r q c : ℚ) (h : r ≤ q - c) : c ≤ |r - q| :=
  le_abs.mpr (Or.inr (by linarith))

/-- A point at least c above q has distance to q at least c. -/
theorem far_hi (r q c : ℚ) (h : q + c ≤ r) : c ≤ |r - q| :=
  le_abs.mpr (Or.inl (by linarith))

/-- Below every reference ratio by at least the 999 sentinel, no fold step
fires and the initial `square_hd` survives. -/
theorem gcp_low_sentinel (w h : Int) (hw : w ≠ 0) (hh : h ≠ 0)
    (hu : (w : ℚ) / (h : ℚ) ≤ 9/16 - 999) :
    getClosestPreset w h = "square_hd" := by
  simp only [getClosestPreset, aspectPresets, List.foldl, absQ_eq_abs]
  set r := (w : ℚ) / (h : ℚ) with hr
  have f1 : ¬ (|r - 9/16| < 999) := not_lt.mpr (far_lo r (9/16) 999 (by linarith))
  have f2 : ¬ (|r - 3/4| < 999) := not_lt.mpr (far_lo r (3/4) 999 (by linarith))
  have f3 : ¬ (|r - 1| < 999) := not_lt.mpr (far_lo r 1 999 (by linarith))
  have f4 : ¬ (|r - 4/3| < 999) := not_lt.mpr (far_lo r (4/3) 999 (by linarith))
  have f5 : ¬ (|r - 16/9| < 999) := not_lt.mpr (far_lo r (16/9) 999 (by linarith))
  simp [hw, hh, f1, f2, f3, f4, f5]

/-- Region of the first table entry. -/
theorem gcp_region1 (w h : Int) (hw : w ≠ 0) (hh : h ≠ 0)
    (hl : 9/16 - 999 < (w : ℚ) / (h : ℚ)) (hu : (w : ℚ) / (h : ℚ) ≤ 21/32) :
    getClosestPreset w h = "portrait_16_9" := by
  simp only [getClosestPreset, aspectPresets, List.foldl, absQ_eq_abs]
  set r := (w : ℚ) / (h : ℚ) with hr
  have f1 : |r - 9/16| < 999 := near_lt r (9/16) 999 (by linarith) (by linarith)
  have f2 : ¬ (|r - 3/4| < |r - 9/16|) :=
    not_lt.mpr (mid_le r (9/16) (3/4) (by norm_num) (by linarith))
  have f3 : ¬ (|r - 1| < |r - 9/16|) :=
    not_lt.mpr (mid_le r (9/16) 1 (by norm_num) (by linarith))
  have f4 : ¬ (|r - 4/3| < |r - 9/16|) :=
    not_lt.mpr (mid_le r (9/16) (4/3) (by norm_num) (by linarith))
  have f5 : ¬ (|r - 16/9| < |r - 9/16|) :=
    not_lt.mpr (mid_le r (9/16) (16/9) (by norm_num) (by linarith))
  simp [hw, hh, f1, f2, f3, f4, f5]

/-- Region of the second table entry. -/
theorem gcp_region2 (w h : Int) (hw : w ≠ 0) (hh : h ≠ 0)
    (hl : 21/32 < (w : ℚ) / (h : ℚ)) (hu : (w : ℚ) / (h : ℚ) ≤ 7/8) :
    getClosestPreset w h = "portrait_4_3" := by
  simp only [getClosestPreset, aspectPresets, List.foldl, absQ_eq_abs]
  set r := (w : ℚ) / (h : ℚ) with hr
  have f1 : |r - 9/16| < 999 := near_lt r (9/16) 999 (by linarith) (by linarith)
  have s2 : |r - 3/4| < |r - 9/16| := mid_lt r (9/16) (3/4) (by norm_num) (by linarith)
  have f3 : ¬ (|r - 1| < |r - 3/4|) :=
    not_lt.mpr (mid_le r (3/4) 1 (by norm_num) (by linarith))
  have f4 : ¬ (|r - 4/3| < |r - 3/4|) :=
    not_lt.mpr (mid_le r (3/4) (4/3) (by norm_num) (by linarith))
  have f5 : ¬ (|r - 16/9| < |r - 3/4|) :=
    not_lt.mpr (mid_le r (3/4) (16/9) (by norm_num) (by linarith))
  simp [hw, hh, f1, s2, f3, f4, f5]

/-- Region of the third table entry. -/
theorem gcp_region3 (w h : Int) (hw : w ≠ 0) (hh : h ≠ 0)
    (hl : 7/8 < (w : ℚ) / (h : ℚ)) (hu : (w : ℚ) / (h : ℚ) ≤ 7/6) :
    getClosestPreset w h = "square_hd" := by
  simp only [getClosestPreset, aspectPresets, List.foldl, absQ_eq_abs]
  set r := (w : ℚ) / (h : ℚ) with hr
  have f1 : |r - 9/16| < 999 := near_lt r (9/16) 999 (by linarith) (by linarith)
  have s2 : |r - 3/4| < |r - 9/16| := mid_lt r (9/16) (3/4) (by norm_num) (by linarith)
  have s3 : |r - 1| < |r - 3/4| := mid_lt r (3/4) 1 (by norm_num) (by linarith)
  have f4 : ¬ (|r - 4/3| < |r - 1|) :=
    not_lt.mpr (mid_le r 1 (4/3) (by norm_num) (by linarith))
  have f5 : ¬ (|r - 16/9| < |r - 1|) :=
    not_lt.mpr (mid_le r 1 (16/9) (by norm_num) (by linarith))
  simp [hw, hh, f1, s2, s3, f4, f5]

/-- Region of the fourth table entry. -/
theorem gcp_region4 (w h : Int) (hw : w ≠ 0) (hh : h ≠ 0)
    (hl : 7/6 < (w : ℚ) / (h : ℚ)) (hu : (w : ℚ) / (h : ℚ) ≤ 14/9) :
    getClosestPreset w h = "landscape_4_3" := by
  simp only [getClosestPreset, aspectPresets, List.foldl, absQ_eq_abs]
  set r := (w : ℚ) / (h : ℚ) with hr
  have f1 : |r - 9/16| < 999 := near_lt r (9/16) 999 (by linarith) (by linarith)
  have s2 : |r - 3/4| < |r - 9/16| := mid_lt r (9/16) (3/4) (by norm_num) (by linarith)
  have s3 : |r - 1| < |r - 3/4| := mid_lt r (3/4) 1 (by norm_num) (by linarith)
  have s4 : |r - 4/3| < |r - 1| := mid_lt r 1 (4/3) (by norm_num) (by linarith)
  have f5 : ¬ (|r - 16/9| < |r - 4/3|) :=
    not_lt.mpr (mid_le r (4/3) (16/9) (by norm_num) (by linarith))
  simp [hw, hh, f1, s2, s3, s4, f5]

/-- Region of the fifth table entry (up to the 999 sentinel bound). -/
theorem gcp_region5 (w h : Int) (hw : w ≠ 0) (hh : h ≠ 0)
    (hl : 14/9 < (w : ℚ) / (h : ℚ)) (hu : (w : ℚ) / (h : ℚ) < 16/9 + 999) :
    getClosestPreset w h = "landscape_16_9" := by
  simp only [getClosestPreset, aspectPresets, List.foldl, absQ_eq_abs]
  set r := (w : ℚ) / (h : ℚ) with hr
  have s2 : |r - 3/4| < |r - 9/16| := mid_lt r (9/16) (3/4) (by norm_num) (by linarith)
  have s3 : |r - 1| < |r - 3/4| := mid_lt r (3/4) 1 (by norm_num) (by linarith)
  have s4 : |r - 4/3| < |r - 1| := mid_lt r 1 (4/3) (by norm_num) (by linarith)
  have s5 : |r - 16/9| < |r - 4/3| := mid_lt r (4/3) (16/9) (by norm_num) (by linarith)
  have g5 : |r - 16/9| < 999 := near_lt r (16/9) 999 (by linarith) (by linarith)
  rcases lt_or_le r (9/16 + 999) with c1 | c1
  · have f1 : |r - 9/16| < 999 := near_lt r (9/16) 999 (by linarith) (by linarith)
    simp [hw, hh, f1, s2, s3, s4, s5]
  · have g1 : ¬ (|r - 9/16| < 999) := not_lt.mpr (far_hi r (9/16) 999 (by linarith))
    rcases lt_or_le r (3/4 + 999) with c2 | c2
    · have f2 : |r - 3/4| < 999 := near_lt r (3/4) 999 (by linarith) (by linarith)
      simp [hw, hh, g1, f2, s3, s4, s5]
    · have g2 : ¬ (|r - 3/4| < 999) := not_lt.mpr (far_hi r (3/4) 999 (by linarith))
      rcases lt_or_le r (1 + 999) with c3 | c3
      · have f3 : |r - 1| < 999 := near_lt r 1 999 (by linarith) (by linarith)
        simp [hw, hh, g1, g2, f3, s4, s5]
      · have g3 : ¬ (|r - 1| < 999) := not_lt.mpr (far_hi r 1 999 (by linarith))
        rcases lt_or_le r (4/3 + 999) with c4 | c4
        · have f4 : |r - 4/3| < 999 := near_lt r (4/3) 999 (by linarith) (by linarith)
          simp [hw, hh, g1, g2, g3, f4, s5]
        · have g4 : ¬ (|r - 4/3| < 999) := not_lt.mpr (far_hi r (4/3) 999 (by linarith))
          simp [hw, hh, g1, g2, g3, g4, g5]

/-- Above every reference ratio by at least the 999 sentinel, no fold step
fires and the initial `square_hd` survives. -/
theorem gcp_high_sentinel (w h : Int) (hw : w ≠ 0) (hh : h ≠ 0)
    (hl : 16/9 + 999 ≤ (w : ℚ) / (h : ℚ)) :
    getClosestPreset w h = "square_hd" := by
  simp only [getClosestPreset, aspectPresets, List.foldl, absQ_eq_abs]
  set r := (w : ℚ) / (h : ℚ) with hr
  have f1 : ¬ (|r - 9/16| < 999) := not_lt.mpr (far_hi r (9/16) 999 (by linarith))
  have f2 : ¬ (|r - 3/4| < 999) := not_lt.mpr (far_hi r (3/4) 999 (by linarith))
  have f3 : ¬ (|r - 1| < 999) := not_lt.mpr (far_hi r 1 999 (by linarith))
  have f4 : ¬ (|r - 4/3| < 999) := not_lt.mpr (far_hi r (4/3) 999 (by linarith))
  have f5 : ¬ (|r - 16/9| < 999) := not_lt.mpr (far_hi r (16/9) 999 (by linarith))
  simp [hw, hh, f1, f2, f3, f4, f5]

/-- Name of the i-th `aspectPresets` entry. -/
def presetName (i : Nat) : String := (aspectPresets.getD i ("square_hd", 999)).1

/-- Reference ratio of the i-th `aspectPresets` entry. -/
def presetRatio (i : Nat) : ℚ := (aspectPresets.getD i ("square_hd", 999)).2

/-- C3 as amended: degenerate dimensions give `square_hd` without a ratio;
otherwise `getClosestPreset` returns the first entry minimizing the
distance of width/height to the reference ratios — except when every
distance is at least the 999 sentinel (|width/height| extreme), where the
fold never fires and the initial `square_hd` is returned; the three quoted
examples hold. -/
theorem dimensions_to_preset_behaviour :
    (∀ w h : Int, w = 0 ∨ h = 0 → getClosestPreset w h = "square_hd") ∧
    (∀ w h : Int, w ≠ 0 → h ≠ 0 →
      (∃ i, i < 5 ∧ getClosestPreset w h = presetName i ∧
          |(w : ℚ) / (h : ℚ) - presetRatio i| < 999 ∧
          (∀ j, j < 5 →
            |(w : ℚ) / (h : ℚ) - presetRatio i| ≤ |(w : ℚ) / (h : ℚ) - presetRatio j|) ∧
          (∀ j, j < i →
            |(w : ℚ) / (h : ℚ) - presetRatio i| < |(w : ℚ) / (h : ℚ) - presetRatio j|)) ∨
      ((∀ j, j < 5 → (999 : ℚ) ≤ |(w : ℚ) / (h : ℚ) - presetRatio j|) ∧
        getClosestPreset w h = "square_hd")) ∧
    getClosestPreset 1000 1000 = "square_hd" ∧
    getClosestPreset 1920 1080 = "landscape_16_9" ∧
    getClosestPreset 1080 1920 = "portrait_16_9" := by
  refine ⟨?_, ?_, ?_, ?_, ?_⟩
  · intro w h h0
    simp only [getClosestPreset]
    rw [if_pos h0]
  · intro w h hw hh
    set r := (w : ℚ) / (h : ℚ) with hr
    rcases le_or_lt r (9/16 - 999) with h0 | h0
    · refine Or.inr ⟨?_, gcp_low_sentinel w h hw hh h0⟩
      intro j hj
      interval_cases j
      · exact far_lo r (9/16) 999 (by linarith)
      · exact far_lo r (3/4) 999 (by linarith)
      · exact far_lo r 1 999 (by linarith)
      · exact far_lo r (4/3) 999 (by linarith)
      · exact far_lo r (16/9) 999 (by linarith)
    rcases le_or_lt r (21/32) with h1 | h1
    · refine Or.inl ⟨0, by norm_num, gcp_region1 w h hw hh h0 h1, ?_, ?_, ?_⟩
      · exact near_lt r (9/16) 999 (by linarith) (by linarith)
      · intro j hj
        interval_cases j
        · exact le_refl _
        · exact mid_le r (9/16) (3/4) (by norm_num) (by linarith)
        · exact mid_le r (9/16) 1 (by norm_num) (by linarith)
        · exact mid_le r (9/16) (4/3) (by norm_num) (by linarith)
        · exact mid_le r (9/16) (16/9) (by norm_num) (by linarith)
      · intro j hj
        exact absurd hj (Nat.not_lt_zero j)
    rcases le_or_lt r (7/8) with h2 | h2
    · refine Or.inl ⟨1, by norm_num, gcp_region2 w h hw hh h1 h2, ?_, ?_, ?_⟩
      · exact near_lt r (3/4) 999 (by linarith) (by linarith)
      · intro j hj
        interval_cases j
        · exact le_of_lt (mid_lt r (9/16) (3/4) (by norm_num) (by linarith))
        · exact le_refl _
        · exact mid_le r (3/4) 1 (by norm_num) (by linarith)
        · exact mid_le r (3/4) (4/3) (by norm_num) (by linarith)
        · exact mid_le r (3/4) (16/9) (by norm_num) (by linarith)
      · intro j hj
        interval_cases j
        · exact mid_lt r (9/16) (3/4) (by norm_num) (by linarith)
    rcases le_or_lt r (7/6) with h3 | h3
    · refine Or.inl ⟨2, by norm_num, gcp_region3 w h hw hh h2 h3, ?_, ?_, ?_⟩
      · exact near_lt r 1 999 (by linarith) (by linarith)
      · intro j hj
        interval_cases j
        · exact le_of_lt (mid_lt r (9/16) 1 (by norm_num) (by linarith))
        · exact le_of_lt (mid_lt r (3/4) 1 (by norm_num) (by linarith))
        · exact le_refl _
        · exact mid_le r 1 (4/3) (by norm_num) (by linarith)
        · exact mid_le r 1 (16/9) (by norm_num) (by linarith)
      · intro j hj
        interval_cases j
        · exact mid_lt r (9/16) 1 (by norm_num) (by linarith)
        · exact mid_lt r (3/4) 1 (by norm_num) (by linarith)
    rcases le_or_lt r (14/9) with h4 | h4
    · refine Or.inl ⟨3, by norm_num, gcp_region4 w h hw hh h3 h4, ?_, ?_, ?_⟩
      · exact near_lt r (4/3) 999 (by linarith) (by linarith)
      · intro j hj
        interval_cases j
        · exact le_of_lt (mid_lt r (9/16) (4/3) (by norm_num) (by linarith))
        · exact le_of_lt (mid_lt r (3/4) (4/3) (by norm_num) (by linarith))
        · exact le_of_lt (mid_lt r 1 (4/3) (by norm_num) (by linarith))
        · exact le_refl _
        · exact mid_le r (4/3) (16/9) (by norm_num) (by linarith)
      · intro j hj
        interval_cases j
        · exact mid_lt r (9/16) (4/3) (by norm_num) (by linarith)
        · exact mid_lt r (3/4) (4/3) (by norm_num) (by linarith)
        · exact mid_lt r 1 (4/3) (by norm_num) (by linarith)
    rcases lt_or_le r (16/9 + 999) with h5 | h5
    · refine Or.inl ⟨4, by norm_num, gcp_region5 w h hw hh h4 h5, ?_, ?_, ?_⟩
      · exact near_lt r (16/9) 999 (by linarith) (by linarith)
      · intro j hj
        interval_cases j
        · exact le_of_lt (mid_lt r (9/16) (16/9) (by norm_num) (by linarith))
        · exact le_of_lt (mid_lt r (3/4) (16/9) (by norm_num) (by linarith))
        · exact le_of_lt (mid_lt r 1 (16/9) (by norm_num) (by linarith))
        · exact le_of_lt (mid_lt r (4/3) (16/9) (by norm_num) (by linarith))
        · exact le_refl _
      · intro j hj
        interval_cases j
        · exact mid_lt r (9/16) (16/9) (by norm_num) (by linarith)
        · exact mid_lt r (3/4) (16/9) (by norm_num) (by linarith)
        · exact mid_lt r 1 (16/9) (by norm_num) (by linarith)
        · exact mid_lt r (4/3) (16/9) (by norm_num) (by linarith)
    · refine Or.inr ⟨?_, gcp_high_sentinel w h hw hh h5⟩
      intro j hj
      interval_cases j
      · exact far_hi r (9/16) 999 (by linarith)
      · exact far_hi r (3/4) 999 (by linarith)
      · exact far_hi r 1 999 (by linarith)
      · exact far_hi r (4/3) 999 (by linarith)
      · exact far_hi r (16/9) 999 (by linarith)
  · exact gcp_region3 1000 1000 (by norm_num) (by norm_num) (by norm_num) (by norm_num)
  · exact gcp_region5 1920 1080 (by norm_num) (by norm_num) (by norm_num) (by norm_num)
  · exact gcp_region1 1080 1920 (by norm_num) (by norm_num) (by norm_num) (by norm_num)

/-- Witness for C3 (amended) at the degenerate input (0, 7) and the
non-degenerate input (1920, 1080). -/
theorem dimensions_to_preset_behaviour_witness :
    ((0 : Int) = 0 ∨ (7 : Int) = 0) ∧ getClosestPreset 0 7 = "square_hd" ∧
    ((1920 : Int) ≠ 0 ∧ (1080 : Int) ≠ 0) ∧
    ((∃ i, i < 5 ∧ getClosestPreset 1920 1080 = presetName i ∧
        |((1920 : Int) : ℚ) / ((1080 : Int) : ℚ) - presetRatio i| < 999 ∧
        (∀ j, j < 5 →
          |((1920 : Int) : ℚ) / ((1080 : Int) : ℚ) - presetRatio i|
            ≤ |((1920 : Int) : ℚ) / ((1080 : Int) : ℚ) - presetRatio j|) ∧
        (∀ j, j < i →
          |((1920 : Int) : ℚ) / ((1080 : Int) : ℚ) - presetRatio i|
            < |((1920 : Int) : ℚ) / ((1080 : Int) : ℚ) - presetRatio j|)) ∨
      ((∀ j, j < 5 →
          (999 : ℚ) ≤ |((1920 : Int) : ℚ) / ((1080 : Int) : ℚ) - presetRatio j|) ∧
        getClosestPreset 1920 1080 = "square_hd")) :=
  ⟨Or.inl rfl,
   dimensions_to_preset_behaviour.1 0 7 (Or.inl rfl),
   ⟨by norm_num, by norm_num⟩,
   dimensions_to_preset_behaviour.2.1 1920 1080 (by norm_num) (by norm_num)⟩

/-- Counterexample to C3 as stated: at (1001, 1) the code returns
`square_hd` (the sentinel initialization, reference ratio 1), although the
table entry `landscape_16_9` (reference ratio 16/9) is strictly closer to
1001/1 — so the result does not minimize the distance. -/
theorem dimensions_to_preset_claim_cex :
    getClosestPreset 1001 1 = "square_hd" ∧
    presetName 2 = "square_hd" ∧
    presetRatio 2 = 1 ∧
    presetName 4 = "landscape_16_9" ∧
    presetRatio 4 = 16/9 ∧
    |((1001 : Int) : ℚ) / ((1 : Int) : ℚ) - presetRatio 4|
      < |((1001 : Int) : ℚ) / ((1 : Int) : ℚ) - presetRatio 2| ∧
    "square_hd" ≠ "landscape_16_9" := by
  refine ⟨?_, rfl, rfl, rfl, rfl, ?_, by decide⟩
  · exact gcp_high_sentinel 1001 1 (by norm_num) (by norm_num) (by norm_num)
  · have e : ((1001 : Int) : ℚ) / ((1 : Int) : ℚ) = 1001 := by norm_num
    rw [e, show presetRatio 4 = 16/9 from rfl, show presetRatio 2 = (1 : ℚ) from rfl,
      abs_of_nonneg (by norm_num : (0 : ℚ) ≤ 1001 - 16/9),
      abs_of_nonneg (by norm_num : (0 : ℚ) ≤ 1001 - 1)]
    norm_num

/-- When every file is readable, the edit-mode image loop never aborts. -/
theorem encodeImages_ok (fs : String → Option (List Nat))
    (hfs : ∀ q, (fs q).isSome) :
    ∀ (imgs : List String) (i : Nat), ∃ uris, encodeImages fs imgs i = Except.ok uris := by
  intro imgs
  induction imgs with
  | nil => exact fun i => ⟨[], rfl⟩
  | cons p rest ih =>
    intro i
    obtain ⟨uris, hrest⟩ := ih (i + 1)
    have hp := hfs p
    rcases hfp : fs p with _ | data
    · rw [hfp] at hp
      exact absurd hp (by simp)
    · exact ⟨("data:" ++ mimeTypeForPath p ++ ";base64," ++ base64Encode data) :: uris,
        by simp [encodeImages, imageToDataURI, hfp, hrest]⟩

/-- An empty size directive materializes as neither size field. -/
theorem setSizeParam_empty (sizeParamName : String) :
    setSizeParam sizeParamName "" = (none, "") := by
  rw [setSizeParam]
  split
  · simp
  · simp

/-- C1: the size directive is chosen by exactly the spec's priority order —
explicit non-`auto` size verbatim; else `auto` in edit mode on an
auto-capable model; else in edit mode the first image's decoded dimensions
through the nearest-ratio match, with decode failure leaving no directive
and never becoming an error (the invocation still succeeds); else `4:3` in
generate mode. -/
theorem size_directive_priority :
    (∀ dims size autoSupported imgs, size ≠ "" → size ≠ "auto" →
      determineSizeValue dims size autoSupported imgs = size) ∧
    (∀ dims size imgs, (size = "" ∨ size = "auto") → imgs ≠ [] →
      determineSizeValue dims size true imgs = "auto") ∧
    (∀ dims size p rest w hgt, (size = "" ∨ size = "auto") →
      dims p = some (w, hgt) →
      determineSizeValue dims size false (p :: rest) = getClosestRatio w hgt) ∧
    (∀ dims size p rest, (size = "" ∨ size = "auto") →
      dims p = none →
      determineSizeValue dims size false (p :: rest) = "") ∧
    (∀ fs dims prompt name size format seedFlag p rest info,
      (size = "" ∨ size = "auto") →
      lookupModel (resolveModel name) = some info →
      info.supportsAutoImgSize = false →
      info.editPath ≠ "" →
      dims p = none →
      (∀ q, (fs q).isSome) →
      ∃ pr, buildInvocation fs dims prompt name size format seedFlag (p :: rest)
          = Except.ok pr ∧
        pr.2.imageSize = none ∧ pr.2.aspectRatio = "") ∧
    (∀ dims size autoSupported, (size = "" ∨ size = "auto") →
      determineSizeValue dims size autoSupported [] = "4:3") := by
  refine ⟨?_, ?_, ?_, ?_, ?_, ?_⟩
  · intro dims size autoSupported imgs h1 h2
    simp [determineSizeValue, h1, h2]
  · intro dims size imgs hsize himgs
    rcases imgs with _ | ⟨a, l⟩
    · exact absurd rfl himgs
    · rcases hsize with h | h <;> subst h <;> simp [determineSizeValue]
  · intro dims size p rest w hgt hsize hdims
    rcases hsize with h | h <;> subst h <;> simp [determineSizeValue, hdims]
  · intro dims size p rest hsize hdims
    rcases hsize with h | h <;> subst h <;> simp [determineSizeValue, hdims]
  · intro fs dims prompt name size format seedFlag p rest info hsize hlook hauto hedit hdims hfs
    obtain ⟨uris, henc⟩ := encodeImages_ok fs hfs (p :: rest) 0
    have hdsv : determineSizeValue dims size info.supportsAutoImgSize (p :: rest) = "" := by
      rw [hauto]
      rcases hsize with h | h <;> subst h <;> simp [determineSizeValue, hdims]
    refine ⟨(info.editPath,
      mkReq dims info prompt size format seedFlag (p :: rest) uris), ?_, ?_, ?_⟩
    · simp [buildInvocation, hlook, hedit, henc]
    · simp [mkReq, hdsv, setSizeParam_empty]
    · simp [mkReq, hdsv, setSizeParam_empty]
  · intro dims size autoSupported hsize
    rcases hsize with h | h <;> subst h <;> simp [determineSizeValue]

/-- Witness for C1 at concrete inputs for each priority branch, including
the soft decode failure on the `qwen` model. -/
theorem size_directive_priority_witness :
    determineSizeValue (fun _ => none) "16:9" false ["a.png"] = "16:9" ∧
    determineSizeValue (fun _ => none) "" true ["a.png"] = "auto" ∧
    determineSizeValue (fun _ => some (1920, 1080)) "" false ["a.png"]
      = getClosestRatio 1920 1080 ∧
    getClosestRatio 1920 1080 = "16:9" ∧
    determineSizeValue (fun _ => none) "" false ["a.png"] = "" ∧
    (∃ pr, buildInvocation (fun _ => some []) (fun _ => none) "p" "qwen" "" "png" (-1)
        ["a.png"] = Except.ok pr ∧
      pr.2.imageSize = none ∧ pr.2.aspectRatio = "") ∧
    determineSizeValue (fun _ => none) "" false [] = "4:3" := by
  refine ⟨?_, ?_, ?_, ?_, ?_, ?_, ?_⟩
  · exact size_directive_priority.1 (fun _ => none) "16:9" false ["a.png"]
      (by decide) (by decide)
  · exact size_directive_priority.2.1 (fun _ => none) "" ["a.png"] (Or.inl rfl) (by simp)
  · exact size_directive_priority.2.2.1 (fun _ => some (1920, 1080)) "" "a.png" [] 1920 1080
      (Or.inl rfl) rfl
  · rw [getClosestRatio,
      gcp_region5 1920 1080 (by norm_num) (by norm_num) (by norm_num) (by norm_num)]
    rfl
  · exact size_directive_priority.2.2.2.1 (fun _ => none) "" "a.png" [] (Or.inl rfl) rfl
  · exact size_directive_priority.2.2.2.2.1 (fun _ => some []) (fun _ => none) "p" "qwen"
      "" "png" (-1) "a.png" []
      ⟨"fal-ai/qwen-image", "fal-ai/qwen-image-edit-plus", false, "image_size"⟩
      (Or.inl rfl) rfl rfl (by decide) rfl (fun q => rfl)
  · exact size_directive_priority.2.2.2.2.2 (fun _ => none) "" false (Or.inl rfl)

/-- C2: for `aspect_ratio` models a non-empty directive is written verbatim
into the aspect_ratio field (never through Ratio→Preset, never checked
against the allow-list — shown for the out-of-list ratio "7:5"); for
`image_size` models the literal `auto` is written as-is and any other
non-empty directive goes through `parseSize`, which maps exactly the five
known ratio strings and leaves every other string unchanged; the request
fields are exactly the materialized pair. -/
theorem directive_materialization :
    (∀ v, v ≠ "" → setSizeParam "aspect_ratio" v = (none, v)) ∧
    ¬ "7:5" ∈ aspectRatioSupported ∧
    setSizeParam "aspect_ratio" "7:5" = (none, "7:5") ∧
    setSizeParam "image_size" "auto" = (some "auto", "") ∧
    (∀ v, v ≠ "" → v ≠ "auto" →
      setSizeParam "image_size" v = (some (parseSize v), "")) ∧
    (parseSize "9:16" = "portrait_16_9" ∧ parseSize "3:4" = "portrait_4_3" ∧
      parseSize "1:1" = "square_hd" ∧ parseSize "4:3" = "landscape_4_3" ∧
      parseSize "16:9" = "landscape_16_9") ∧
    (∀ s, s ≠ "9:16" → s ≠ "3:4" → s ≠ "1:1" → s ≠ "4:3" → s ≠ "16:9" →
      parseSize s = s) ∧
    (∀ dims info prompt size format seedFlag imgs urls,
      (mkReq dims info prompt size format seedFlag imgs urls).imageSize
          = (setSizeParam info.sizeParamName
              (determineSizeValue dims size info.supportsAutoImgSize imgs)).1 ∧
      (mkReq dims info prompt size format seedFlag imgs urls).aspectRatio
          = (setSizeParam info.sizeParamName
              (determineSizeValue dims size info.supportsAutoImgSize imgs)).2) := by
  refine ⟨?_, by decide, by decide, by decide, ?_, ⟨rfl, rfl, rfl, rfl, rfl⟩, ?_, ?_⟩
  · intro v hv
    rw [setSizeParam, if_pos rfl, if_pos hv]
  · intro v h1 h2
    rw [setSizeParam, if_neg (by decide), if_pos ⟨h1, h2⟩]
  · intro s h1 h2 h3 h4 h5
    simp [parseSize, List.lookup, beq_eq_false_iff_ne.mpr h1, beq_eq_false_iff_ne.mpr h2,
      beq_eq_false_iff_ne.mpr h3, beq_eq_false_iff_ne.mpr h4, beq_eq_false_iff_ne.mpr h5]
  · intro dims info prompt size format seedFlag imgs urls
    exact ⟨rfl, rfl⟩

/-- Witness for C2 at the out-of-list ratio "7:5", the literal `auto`, the
mapped ratio "16:9" and the already-preset-shaped string "landscape_4_3". -/
theorem directive_materialization_witness :
    setSizeParam "aspect_ratio" "7:5" = (none, "7:5") ∧
    setSizeParam "image_size" "16:9" = (some (parseSize "16:9"), "") ∧
    parseSize "16:9" = "landscape_16_9" ∧
    parseSize "landscape_4_3" = "landscape_4_3" :=
  ⟨directive_materialization.1 "7:5" (by decide),
   directive_materialization.2.2.2.2.1 "16:9" (by decide) (by decide),
   directive_materialization.2.2.2.2.2.1.2.2.2.2,
   directive_materialization.2.2.2.2.2.2.1 "landscape_4_3"
     (by decide) (by decide) (by decide) (by decide) (by decide)⟩

/-- Every successfully built invocation's request is a `mkReq` value for the
looked-up model. -/
theorem buildInvocation_ok_inv (fs : String → Option (List Nat))
    (dims : String → Option (Int × Int)) (prompt name size format : String)
    (seedFlag : Int) (imgs : List String) (path : String) (req : ImageRequest)
    (h : buildInvocation fs dims prompt name size format seedFlag imgs
      = Except.ok (path, req)) :
    ∃ info urls, lookupModel (resolveModel name) = some info ∧
      req = mkReq dims info prompt size format seedFlag imgs urls := by
  rw [buildInvocation] at h
  split at h
  · exact Except.noConfusion h
  · rename_i info hm
    split at h
    · simp only [Except.ok.injEq, Prod.mk.injEq] at h
      exact ⟨info, [], hm, h.2.symm⟩
    · split at h
      · exact Except.noConfusion h
      · split at h
        · exact Except.noConfusion h
        · rename_i uris henc
          simp only [Except.ok.injEq, Prod.mk.injEq] at h
          exact ⟨info, uris, hm, h.2.symm⟩

/-- A serialized request has a "seed" field exactly for the seed the request
carries. -/
theorem serialize_seed (r : ImageRequest) (v : Json) :
    ("seed", v) ∈ serializeRequest r ↔ ∃ n, r.seed = some n ∧ v = Json.num n := by
  have k1 : "seed" ≠ "prompt" := by decide
  have k2 : "seed" ≠ "image_size" := by decide
  have k3 : "seed" ≠ "aspect_ratio" := by decide
  have k4 : "seed" ≠ "output_format" := by decide
  have k5 : "seed" ≠ "image_urls" := by decide
  have k6 : "seed" ≠ "enable_safety_checker" := by decide
  rcases him : r.imageSize with _ | s <;>
    rcases hse : r.seed with _ | n <;>
    by_cases ha : r.aspectRatio = "" <;>
    by_cases hof : r.outputFormat = "" <;>
    by_cases hu : r.imageURLs = [] <;>
    simp [serializeRequest, him, hse, ha, hof, hu, k1, k2, k3, k4, k5, k6]

/-- A serialized request has an "image_size" field exactly for the value the
request carries. -/
theorem serialize_image_size (r : ImageRequest) (v : Json) :
    ("image_size", v) ∈ serializeRequest r ↔
      ∃ s, r.imageSize = some s ∧ v = Json.str s := by
  have k1 : "image_size" ≠ "prompt" := by decide
  have k3 : "image_size" ≠ "aspect_ratio" := by decide
  have k4 : "image_size" ≠ "output_format" := by decide
  have k5 : "image_size" ≠ "image_urls" := by decide
  have k6 : "image_size" ≠ "seed" := by decide
  have k7 : "image_size" ≠ "enable_safety_checker" := by decide
  rcases him : r.imageSize with _ | s <;>
    rcases hse : r.seed with _ | n <;>
    by_cases ha : r.aspectRatio = "" <;>
    by_cases hof : r.outputFormat = "" <;>
    by_cases hu : r.imageURLs = [] <;>
    simp [serializeRequest, him, hse, ha, hof, hu, k1, k3, k4, k5, k6, k7]

/-- A serialized request has an "aspect_ratio" field exactly when the
request's aspect ratio is non-empty. -/
theorem serialize_aspect_ratio (r : ImageRequest) (v : Json) :
    ("aspect_ratio", v) ∈ serializeRequest r ↔
      r.aspectRatio ≠ "" ∧ v = Json.str r.aspectRatio := by
  have k1 : "aspect_ratio" ≠ "prompt" := by decide
  have k2 : "aspect_ratio" ≠ "image_size" := by decide
  have k4 : "aspect_ratio" ≠ "output_format" := by decide
  have k5 : "aspect_ratio" ≠ "image_urls" := by decide
  have k6 : "aspect_ratio" ≠ "seed" := by decide
  have k7 : "aspect_ratio" ≠ "enable_safety_checker" := by decide
  rcases him : r.imageSize with _ | s <;>
    rcases hse : r.seed with _ | n <;>
    by_cases ha : r.aspectRatio = "" <;>
    by_cases hof : r.outputFormat = "" <;>
    by_cases hu : r.imageURLs = [] <;>
    simp [serializeRequest, him, hse, ha, hof, hu, k1, k2, k4, k5, k6, k7]

/-- C7: the outgoing request carries a seed exactly when the caller's seed
flag is non-negative; the unset default `-1` omits the field entirely from
the serialized JSON, and `42` serializes as a seed field with value 42. -/
theorem seed_sent_iff_nonneg :
    (∀ fs dims prompt name size format seedFlag imgs path req,
      buildInvocation fs dims prompt name size format seedFlag imgs
        = Except.ok (path, req) →
      req.seed = (if 0 ≤ seedFlag then some seedFlag else none) ∧
      (∀ v, ("seed", v) ∈ serializeRequest req ↔ 0 ≤ seedFlag ∧ v = Json.num seedFlag)) ∧
    (∃ path req,
      buildInvocation (fun _ => none) (fun _ => none) "p" "z-turbo" "" "png" (-1) []
        = Except.ok (path, req) ∧
      req.seed = none ∧ ∀ v, ("seed", v) ∉ serializeRequest req) ∧
    (∃ path req,
      buildInvocation (fun _ => none) (fun _ => none) "p" "z-turbo" "" "png" 42 []
        = Except.ok (path, req) ∧
      req.seed = some 42 ∧ ("seed", Json.num 42) ∈ serializeRequest req) := by
  refine ⟨?_, ?_, ?_⟩
  · intro fs dims prompt name size format seedFlag imgs path req h
    obtain ⟨info, urls, hm, hreq⟩ :=
      buildInvocation_ok_inv fs dims prompt name size format seedFlag imgs path req h
    subst hreq
    refine ⟨rfl, ?_⟩
    intro v
    rw [serialize_seed]
    by_cases hsf : 0 ≤ seedFlag <;> simp [mkReq, hsf]
  · refine ⟨_, _, rfl, rfl, ?_⟩
    intro v hv
    rw [serialize_seed] at hv
    obtain ⟨n, hn, _⟩ := hv
    exact Option.noConfusion hn
  · exact ⟨_, _, rfl, rfl, (serialize_seed _ _).mpr ⟨42, rfl, rfl⟩⟩

/-- Witness for C7: the general field law applied at the concrete seed 42
invocation of `z-turbo`. -/
theorem seed_sent_iff_nonneg_witness :
    (mkReq (fun _ => none) ⟨"fal-ai/z-image/turbo", "", false, "image_size"⟩
        "p" "" "png" 42 [] []).seed
      = (if (0 : Int) ≤ 42 then some (42 : Int) else none) ∧
    (∀ v, ("seed", v) ∈ serializeRequest
        (mkReq (fun _ => none) ⟨"fal-ai/z-image/turbo", "", false, "image_size"⟩
          "p" "" "png" 42 [] [])
      ↔ (0 : Int) ≤ 42 ∧ v = Json.num 42) :=
  seed_sent_iff_nonneg.1 (fun _ => none) (fun _ => none) "p" "z-turbo" "" "png" 42 []
    "fal-ai/z-image/turbo"
    (mkReq (fun _ => none) ⟨"fal-ai/z-image/turbo", "", false, "image_size"⟩
      "p" "" "png" 42 [] []) rfl

/-- For `aspect_ratio` models the materialized image_size field is absent. -/
theorem setSizeParam_fst (v : String) : (setSizeParam "aspect_ratio" v).1 = none := by
  rw [setSizeParam, if_pos rfl]
  split <;> rfl

/-- For every other size parameter name the aspect_ratio field is absent. -/
theorem setSizeParam_snd (sp v : String) (h : sp ≠ "aspect_ratio") :
    (setSizeParam sp v).2 = "" := by
  rw [setSizeParam, if_neg h]
  split
  · rfl
  · split <;> rfl

/-- Materialization never fills both size fields. -/
theorem setSizeParam_cases (sp v : String) :
    (setSizeParam sp v).1 = none ∨ (setSizeParam sp v).2 = "" := by
  by_cases hsp : sp = "aspect_ratio"
  · subst hsp
    exact Or.inl (setSizeParam_fst v)
  · exact Or.inr (setSizeParam_snd sp v hsp)

/-- C10: every built request populates at most one of the two size fields —
`aspect_ratio` models never set image_size, `image_size` models never set
aspect_ratio, and no serialized request carries both fields. -/
theorem at_most_one_size_field :
    ∀ fs dims prompt name size format seedFlag imgs path req,
      buildInvocation fs dims prompt name size format seedFlag imgs
        = Except.ok (path, req) →
      (req.imageSize = none ∨ req.aspectRatio = "") ∧
      (∀ info, lookupModel (resolveModel name) = some info →
        (info.sizeParamName = "aspect_ratio" → req.imageSize = none) ∧
        (info.sizeParamName = "image_size" → req.aspectRatio = "")) ∧
      (∀ v1 v2, ("image_size", v1) ∈ serializeRequest req →
        ("aspect_ratio", v2) ∈ serializeRequest req → False) := by
  intro fs dims prompt name size format seedFlag imgs path req h
  obtain ⟨info, urls, hm, hreq⟩ :=
    buildInvocation_ok_inv fs dims prompt name size format seedFlag imgs path req h
  subst hreq
  refine ⟨?_, ?_, ?_⟩
  · rcases setSizeParam_cases info.sizeParamName
      (determineSizeValue dims size info.supportsAutoImgSize imgs) with hc | hc
    · exact Or.inl hc
    · exact Or.inr hc
  · intro info2 hm2
    rw [hm] at hm2
    obtain rfl : info = info2 := Option.some.inj hm2
    constructor
    · intro hsp
      show (setSizeParam info.sizeParamName
        (determineSizeValue dims size info.supportsAutoImgSize imgs)).1 = none
      rw [hsp]
      exact setSizeParam_fst _
    · intro hsp
      show (setSizeParam info.sizeParamName
        (determineSizeValue dims size info.supportsAutoImgSize imgs)).2 = ""
      rw [hsp]
      exact setSizeParam_snd _ _ (by decide)
  · intro v1 v2 h1 h2
    rw [serialize_image_size] at h1
    rw [serialize_aspect_ratio] at h2
    obtain ⟨s, hs, _⟩ := h1
    obtain ⟨hne, _⟩ := h2
    have hs2 : (setSizeParam info.sizeParamName
      (determineSizeValue dims size info.supportsAutoImgSize imgs)).1 = some s := hs
    have hne2 : (setSizeParam info.sizeParamName
      (determineSizeValue dims size info.supportsAutoImgSize imgs)).2 ≠ "" := hne
    rcases setSizeParam_cases info.sizeParamName
      (determineSizeValue dims size info.supportsAutoImgSize imgs) with hc | hc
    · rw [hc] at hs2
      exact Option.noConfusion hs2
    · exact hne2 hc

/-- Witness for C10 at the concrete `nano-banana` edit invocation. -/
theorem at_most_one_size_field_witness :
    ((mkReq (fun _ => none) ⟨"fal-ai/nano-banana", "fal-ai/nano-banana/edit", true,
          "aspect_ratio"⟩ "p" "" "png" (-1) ["a.png"]
        ["data:image/png;base64,AQID"]).imageSize = none ∨
      (mkReq (fun _ => none) ⟨"fal-ai/nano-banana", "fal-ai/nano-banana/edit", true,
          "aspect_ratio"⟩ "p" "" "png" (-1) ["a.png"]
        ["data:image/png;base64,AQID"]).aspectRatio = "") ∧
    (∀ info, lookupModel (resolveModel "nano-banana") = some info →
      (info.sizeParamName = "aspect_ratio" →
        (mkReq (fun _ => none) ⟨"fal-ai/nano-banana", "fal-ai/nano-banana/edit", true,
            "aspect_ratio"⟩ "p" "" "png" (-1) ["a.png"]
          ["data:image/png;base64,AQID"]).imageSize = none) ∧
      (info.sizeParamName = "image_size" →
        (mkReq (fun _ => none) ⟨"fal-ai/nano-banana", "fal-ai/nano-banana/edit", true,
            "aspect_ratio"⟩ "p" "" "png" (-1) ["a.png"]
          ["data:image/png;base64,AQID"]).aspectRatio = "")) ∧
    (∀ v1 v2, ("image_size", v1) ∈ serializeRequest
        (mkReq (fun _ => none) ⟨"fal-ai/nano-banana", "fal-ai/nano-banana/edit", true,
          "aspect_ratio"⟩ "p" "" "png" (-1) ["a.png"] ["data:image/png;base64,AQID"]) →
      ("aspect_ratio", v2) ∈ serializeRequest
        (mkReq (fun _ => none) ⟨"fal-ai/nano-banana", "fal-ai/nano-banana/edit", true,
          "aspect_ratio"⟩ "p" "" "png" (-1) ["a.png"] ["data:image/png;base64,AQID"]) →
      False) :=
  at_most_one_size_field (fun _ => some [1, 2, 3]) (fun _ => none) "p" "nano-banana" ""
    "png" (-1) ["a.png"] "fal-ai/nano-banana/edit"
    (mkReq (fun _ => none) ⟨"fal-ai/nano-banana", "fal-ai/nano-banana/edit", true,
      "aspect_ratio"⟩ "p" "" "png" (-1) ["a.png"] ["data:image/png;base64,AQID"]) rfl

/-- The edit-mode image loop fails at exactly the first unreadable image,
reporting its 1-based position (relative to the loop's running index). -/
theorem encodeImages_error_first (fs : String → Option (List Nat)) :
    ∀ (imgs : List String) (off k : Nat), k < imgs.length →
    (∀ j, j < k → (fs (imgs.getD j "")).isSome) →
    fs (imgs.getD k "") = none →
    encodeImages fs imgs off = Except.error (off + k + 1, imgs.getD k "") := by
  intro imgs
  induction imgs with
  | nil =>
    intro off k hk hbefore hfail
    exact absurd hk (by simp)
  | cons p rest ih =>
    intro off k hk hbefore hfail
    rcases k with _ | k
    · have hp : fs p = none := by simpa using hfail
      simp [encodeImages, imageToDataURI, hp]
    · have hp : (fs p).isSome := by
        have h0 := hbefore 0 (Nat.succ_pos k)
        simpa using h0
      rcases hfp : fs p with _ | data
      · rw [hfp] at hp
        exact absurd hp (by simp)
      · have hrest := ih (off + 1) k (by simpa using hk)
          (fun j hj => by simpa using hbefore (j + 1) (Nat.succ_lt_succ hj))
          (by simpa using hfail)
        have harith : off + 1 + k + 1 = off + (k + 1) + 1 := by omega
        simp [encodeImages, imageToDataURI, hfp, hrest, harith]

/-- C8: every input image is read and wrapped as a base64 data URI whose
MIME type comes from the lowercased file extension alone (the five-entry
switch, falling back to application/octet-stream, never inspecting file
contents); a failed read of any image makes the whole pre-network phase
fail with the image's 1-based ordinal and path, so nothing is submitted. -/
theorem edit_images_handling :
    (∀ fs p data, fs p = some data →
      imageToDataURI fs p
        = some ("data:" ++ mimeTypeForPath p ++ ";base64," ++ base64Encode data)) ∧
    (∀ p, toLowerAscii (filepathExt p) = ".png" → mimeTypeForPath p = "image/png") ∧
    (∀ p, toLowerAscii (filepathExt p) = ".jpg" ∨ toLowerAscii (filepathExt p) = ".jpeg" →
      mimeTypeForPath p = "image/jpeg") ∧
    (∀ p, toLowerAscii (filepathExt p) = ".webp" → mimeTypeForPath p = "image/webp") ∧
    (∀ p, toLowerAscii (filepathExt p) = ".gif" → mimeTypeForPath p = "image/gif") ∧
    (∀ p, toLowerAscii (filepathExt p) ≠ ".png" → toLowerAscii (filepathExt p) ≠ ".jpg" →
      toLowerAscii (filepathExt p) ≠ ".jpeg" → toLowerAscii (filepathExt p) ≠ ".webp" →
      toLowerAscii (filepathExt p) ≠ ".gif" →
      mimeTypeForPath p = "application/octet-stream") ∧
    (∀ fs dims prompt name size format seedFlag imgs info k,
      lookupModel (resolveModel name) = some info →
      info.editPath ≠ "" →
      k < imgs.length →
      (∀ j, j < k → (fs (imgs.getD j "")).isSome) →
      fs (imgs.getD k "") = none →
      buildInvocation fs dims prompt name size format seedFlag imgs
        = Except.error (GenError.imageRead (k + 1) (imgs.getD k ""))) := by
  refine ⟨?_, ?_, ?_, ?_, ?_, ?_, ?_⟩
  · intro fs p data hdata
    simp [imageToDataURI, hdata]
  · intro p hext
    rw [mimeTypeForPath, if_pos hext]
  · intro p hext
    rcases hext with h | h <;> rw [mimeTypeForPath, h] <;> decide
  · intro p hext
    rw [mimeTypeForPath, hext]
    decide
  · intro p hext
    rw [mimeTypeForPath, hext]
    decide
  · intro p h1 h2 h3 h4 h5
    rw [mimeTypeForPath, if_neg h1, if_neg (not_or.mpr ⟨h2, h3⟩), if_neg h4, if_neg h5]
  · intro fs dims prompt name size format seedFlag imgs info k hm hep hk hbefore hfail
    rcases imgs with _ | ⟨p, rest⟩
    · exact absurd hk (by simp)
    · have henc := encodeImages_error_first fs (p :: rest) 0 k hk hbefore hfail
      simp [buildInvocation, hm, hep, henc]

/-- Witness for C8: a PNG named with an uppercase extension encodes as a
data URI with base64 "TWFu" of the bytes of "Man", and an invocation whose
second image is unreadable aborts with ordinal 2 and that path. -/
theorem edit_images_handling_witness :
    imageToDataURI (fun q => if q = "b.png" then none else some [77, 97, 110]) "photo.PNG"
      = some ("data:" ++ mimeTypeForPath "photo.PNG" ++ ";base64,"
          ++ base64Encode [77, 97, 110]) ∧
    mimeTypeForPath "photo.PNG" = "image/png" ∧
    base64Encode [77, 97, 110] = "TWFu" ∧
    buildInvocation (fun q => if q = "b.png" then none else some [77, 97, 110])
        (fun _ => none) "p" "qwen" "" "png" (-1) ["a.png", "b.png"]
      = Except.error (GenError.imageRead 2 "b.png") := by
  refine ⟨?_, ?_, by decide, ?_⟩
  · exact edit_images_handling.1 (fun q => if q = "b.png" then none else some [77, 97, 110])
      "photo.PNG" [77, 97, 110] (by decide)
  · exact edit_images_handling.2.1 "photo.PNG" (by decide)
  · exact edit_images_handling.2.2.2.2.2.2
      (fun q => if q = "b.png" then none else some [77, 97, 110]) (fun _ => none)
      "p" "qwen" "" "png" (-1) ["a.png", "b.png"]
      ⟨"fal-ai/qwen-image", "fal-ai/qwen-image-edit-plus", false, "image_size"⟩ 1
      rfl (by decide) (by decide) (fun j hj => by interval_cases j; decide) (by decide)
